import Mathlib

set_option maxRecDepth 4000

/-!
Shallow embedding of `CustomerInfoDatabase.py`: a single-window form that
validates a name/email pair and inserts one customer row per submission
into a local sqlite table `customers`.  Pure functions below mirror the
source methods `is_valid_email`, `submit_data`, `clear_form` and
`setup_database`; the sqlite layer is an explicit store value plus a
success oracle for the environmental failure modes that sqlite can raise.
-/

/-! ## Character classes of the regex in `is_valid_email` -/

/-- Characters matched by the class for the local part,
essentially the range a-zA-Z0-9 together with underscore, dot, plus, hyphen. -/
def isLocalChar (c : Char) : Bool :=
  c.isAlpha || c.isDigit || c == '_' || c == '.' || c == '+' || c == '-'

/-- Characters matched by the first domain class: a-zA-Z0-9 and hyphen. -/
def isLdhChar (c : Char) : Bool :=
  c.isAlpha || c.isDigit || c == '-'

/-- Characters matched by the second domain class: a-zA-Z0-9, hyphen and dot. -/
def isLdhDotChar (c : Char) : Bool :=
  isLdhChar c || c == '.'

/-! ## Python `str.strip()` on the ASCII whitespace characters -/

/-- ASCII whitespace stripped by the default `str.strip()`. -/
def isPySpace (c : Char) : Bool :=
  c == ' ' || c == '\t' || c == '\n' || c == '\r' || c == '\x0b' || c == '\x0c'

/-- Removal of leading whitespace. -/
def stripLeft (l : List Char) : List Char := l.dropWhile isPySpace

/-- Removal of trailing whitespace. -/
def stripRight (l : List Char) : List Char := (l.reverse.dropWhile isPySpace).reverse

/-- Embedding of Python `s.strip()`. -/
def pyStrip (s : String) : String := String.mk (stripRight (stripLeft s.data))

/-! ## The regex `^[a-zA-Z0-9_.+-]+@[a-zA-Z0-9-]+\.[a-zA-Z0-9-.]+$`

The matcher below recognises the language of the pattern: since `@` is not
in the local-part class and `.` is not in the first domain class, each
`+`-run extends maximally and the match is deterministic.  Python `$` also
matches just before one final newline, which `is_valid_email` reproduces. -/

/-- Matcher for the domain part `[a-zA-Z0-9-]+\.[a-zA-Z0-9-.]+`. -/
def matchDomain (d : List Char) : Bool :=
  match d.dropWhile isLdhChar with
  | [] => false
  | c2 :: d2 =>
      c2 == '.' && !(d.takeWhile isLdhChar).isEmpty && !d2.isEmpty && d2.all isLdhDotChar

/-- Matcher for the whole pattern body against an entire character list. -/
def matchEmailCore (l : List Char) : Bool :=
  match l.dropWhile isLocalChar with
  | [] => false
  | c :: d =>
      c == '@' && !(l.takeWhile isLocalChar).isEmpty && matchDomain d

/-- Embedding of `is_valid_email`: `re.match` of the anchored pattern, where
`$` accepts either the end of the string or a position just before a single
final newline. -/
def is_valid_email (s : String) : Bool :=
  matchEmailCore s.data ||
    (match s.data.getLast? with
     | some c => c == '\n' && matchEmailCore s.data.dropLast
     | none => false)

/-- Shape of the strings the pattern body matches: a nonempty local part,
an at sign, a nonempty letter/digit/hyphen run, a dot, and a nonempty
letter/digit/hyphen/dot run. -/
def emailShape (l : List Char) : Prop :=
  ∃ lp d1 d2 : List Char,
    l = lp ++ '@' :: (d1 ++ '.' :: d2) ∧
    lp ≠ [] ∧ lp.all isLocalChar = true ∧
    d1 ≠ [] ∧ d1.all isLdhChar = true ∧
    d2 ≠ [] ∧ d2.all isLdhDotChar = true

/-! ## The language claimed by the specification for the email check -/

/-- Split of a character list at every occurrence of a separator. -/
def splitSep (sep : Char) : List Char → List (List Char)
  | [] => [[]]
  | c :: t =>
    match splitSep sep t with
    | [] => [[c]]
    | s :: rest => if c == sep then [] :: s :: rest else (c :: s) :: rest

/-- Modelled from the spec sentence for the claim: the accepted pattern is
`local-part@domain` with a local part of one or more ASCII
letters/digits/`_.+-` and a domain that contains at least one dot and
consists of letter/digit/hyphen segments. -/
def claimedEmailSpec (s : String) : Bool :=
  match splitSep '@' s.data with
  | [lp, d] =>
      !lp.isEmpty && lp.all isLocalChar &&
        (let segs := splitSep '.' d
         decide (2 ≤ segs.length) && segs.all (fun seg => !seg.isEmpty && seg.all isLdhChar))
  | _ => false

/-! ## Data model: the `customers` table and its schema -/

/-- One row of the `customers` table as `submit_data` inserts it. -/
structure CustomerRow where
  id : Nat
  name : String
  birthday : String
  email : String
  phone : String
  address : String
  contact_method : String
deriving DecidableEq

/-- One column of the schema in `setup_database`: its name, whether it is
declared NOT NULL, and whether it is the INTEGER PRIMARY KEY AUTOINCREMENT. -/
structure DbColumn where
  colName : String
  notNull : Bool
  primaryKeyAutoincrement : Bool
deriving DecidableEq

/-- The columns of `CREATE TABLE IF NOT EXISTS customers (...)` as declared. -/
def customersColumns : List DbColumn :=
  [ ⟨"id", false, true⟩,
    ⟨"name", true, false⟩,
    ⟨"birthday", false, false⟩,
    ⟨"email", true, false⟩,
    ⟨"phone", false, false⟩,
    ⟨"address", false, false⟩,
    ⟨"contact_method", false, false⟩ ]

/-- A candidate sqlite row with nullable fields, for stating what the
schema alone does and does not reject. -/
structure SqlRow where
  id : Option Int
  name : Option String
  birthday : Option String
  email : Option String
  phone : Option String
  address : Option String
  contact_method : Option String
deriving DecidableEq

/-- Value of a named column in a candidate row. -/
def colValue (r : SqlRow) (c : String) : Option String :=
  if c == "id" then r.id.map (fun i => toString i)
  else if c == "name" then r.name
  else if c == "birthday" then r.birthday
  else if c == "email" then r.email
  else if c == "phone" then r.phone
  else if c == "address" then r.address
  else if c == "contact_method" then r.contact_method
  else none

/-- The NOT NULL checks the declared schema applies to a candidate row. -/
def rowSatisfiesNotNull (r : SqlRow) : Bool :=
  customersColumns.all (fun c => !c.notNull || (colValue r c.colName).isSome)

/-- The sqlite database file: the `customers` table schema when the table
exists, its rows, and the next AUTOINCREMENT id. -/
structure DbStore where
  schema : Option (List DbColumn)
  rows : List CustomerRow
  nextId : Nat
deriving DecidableEq

/-! ## User-visible notifications and connection events -/

/-- A modal messagebox call: `showwarning`, `showinfo` or `showerror`. -/
inductive Notice where
  | warning (title body : String)
  | info (title body : String)
  | error (title body : String)
deriving DecidableEq

/-- Connection-scoped effects of one database call. -/
inductive DbEvent where
  | openConn
  | execSql
  | commitTx
  | closeConn
deriving DecidableEq

/-! ## Form state and widgets -/

/-- The five entry widgets and the combobox variable of the window. -/
structure FormState where
  name_entry : String
  birthday_entry : String
  email_entry : String
  phone_entry : String
  address_entry : String
  contact_method_var : String
deriving DecidableEq

/-- The dropdown values offered by `create_widgets`. -/
def contact_options : List String := ["Email", "Phone", "Mail"]

/-- A read-only combobox: its value list, its tkinter state, and the
value `create_widgets` selects initially. -/
structure ComboboxModel where
  values : List String
  state : String
  current : String
deriving DecidableEq

/-- The preferred-contact dropdown as `create_widgets` builds it. -/
def contact_method_menu : ComboboxModel :=
  { values := contact_options, state := "readonly", current := contact_options.headD "" }

/-- Embedding of `clear_form`: every entry is emptied and the dropdown is
reset to `"Email"`. -/
def clear_form (_ : FormState) : FormState :=
  { name_entry := "", birthday_entry := "", email_entry := "",
    phone_entry := "", address_entry := "", contact_method_var := "Email" }

/-! ## The record store: `setup_database` and the INSERT of `submit_data` -/

/-- Semantics of the CREATE TABLE statement: with `IF NOT EXISTS` an
existing table is left untouched, without it the statement errors. -/
def createTableStmt (ifNotExists : Bool) (s : DbStore) : Except String DbStore :=
  match s.schema with
  | some _ => if ifNotExists then Except.ok s else Except.error "table customers already exists"
  | none => Except.ok { s with schema := some customersColumns }

/-- Embedding of `setup_database`: connect, run the guarded CREATE TABLE,
commit; on a sqlite error show a Database Error box and destroy the root
window (second component of the result); the `finally` closes the
connection on both paths.  `diskOk` is the oracle for environmental
sqlite failures. -/
def setup_database (s : DbStore) (diskOk : Bool) : DbStore × Option Notice × Bool × List DbEvent :=
  match (if diskOk then createTableStmt true s else Except.error "disk I-O error") with
  | Except.ok s' =>
      (s', none, false, [DbEvent.openConn, DbEvent.execSql, DbEvent.commitTx, DbEvent.closeConn])
  | Except.error e =>
      (s, some (Notice.error "Database Error" ("An error occurred: " ++ e)), true,
        [DbEvent.openConn, DbEvent.closeConn])

/-- Semantics of the parameterised INSERT: it fails when sqlite reports an
error (`dbOk = false`) or when the table is missing; otherwise it appends
one row with the next AUTOINCREMENT id. -/
def attemptInsert (store : DbStore)
    (name birthday email phone address contact_method : String)
    (dbOk : Bool) : Except String DbStore :=
  if dbOk then
    match store.schema with
    | none => Except.error "no such table: customers"
    | some _ =>
        Except.ok { store with
          rows := store.rows ++
            [{ id := store.nextId, name := name, birthday := birthday, email := email,
               phone := phone, address := address, contact_method := contact_method }],
          nextId := store.nextId + 1 }
  else Except.error "database failure"

/-- Embedding of `submit_data`: read and strip the five entries, read the
dropdown variable, run the two validation checks, then insert inside
try/except/finally.  The result carries the new form state, the new store,
the messagebox call, and the connection events of the call. -/
def submit_data (st : FormState) (store : DbStore) (dbOk : Bool) :
    FormState × DbStore × Notice × List DbEvent :=
  if pyStrip st.name_entry == "" || pyStrip st.email_entry == "" then
    (st, store, Notice.warning "Validation Error" "Name and Email are required fields.",
      ([] : List DbEvent))
  else if is_valid_email (pyStrip st.email_entry) then
    match attemptInsert store (pyStrip st.name_entry) (pyStrip st.birthday_entry)
        (pyStrip st.email_entry) (pyStrip st.phone_entry) (pyStrip st.address_entry)
        st.contact_method_var dbOk with
    | Except.ok store' =>
        (clear_form st, store',
          Notice.info "Success" "Customer information saved successfully!",
          [DbEvent.openConn, DbEvent.execSql, DbEvent.commitTx, DbEvent.closeConn])
    | Except.error e =>
        (st, store, Notice.error "Database Error" ("Failed to save data: " ++ e),
          [DbEvent.openConn, DbEvent.closeConn])
  else
    (st, store, Notice.warning "Validation Error" "Please enter a valid email address.",
      ([] : List DbEvent))

/-! ## Concrete fixtures -/

/-- The end-to-end example submission of the specification. -/
def janeState : FormState :=
  { name_entry := "Jane Doe", birthday_entry := "1990-01-01",
    email_entry := "jane@example.com", phone_entry := "555-1234",
    address_entry := "1 Main St", contact_method_var := "Phone" }

/-- A store in which the table exists and is empty. -/
def store1 : DbStore := { schema := some customersColumns, rows := [], nextId := 1 }

/-- A store before any `setup_database` call. -/
def freshStore : DbStore := { schema := none, rows := [], nextId := 1 }

/-- The row the Jane Doe submission inserts into the empty table. -/
def janeRow : CustomerRow :=
  { id := 1, name := "Jane Doe", birthday := "1990-01-01", email := "jane@example.com",
    phone := "555-1234", address := "1 Main St", contact_method := "Phone" }

/-! ## List facts used by the matcher and strip proofs -/

theorem dropWhileHeadFalse {α : Type} {p : α → Bool} :
    ∀ {l : List α} {c : α} {r : List α}, l.dropWhile p = c :: r → p c = false := by
  intro l
  induction l with
  | nil => intro c r h; simp [List.dropWhile] at h
  | cons a t ih =>
    intro c r h
    rw [List.dropWhile_cons] at h
    by_cases ha : p a = true
    · rw [if_pos ha] at h; exact ih h
    · rw [if_neg ha] at h
      injection h with h1 _
      subst h1
      exact Bool.eq_false_iff.mpr ha

theorem dropWhileAppendFalse {α : Type} {p : α → Bool} (xs : List α) {c : α} {r : List α}
    (hx : ∀ x ∈ xs, p x = true) (hc : p c = false) :
    (xs ++ c :: r).dropWhile p = c :: r := by
  induction xs with
  | nil => simp [List.dropWhile_cons, hc]
  | cons a t ih =>
    have ha : p a = true := hx a (by simp)
    rw [List.cons_append, List.dropWhile_cons, if_pos ha]
    exact ih (fun x hmem => hx x (by simp [hmem]))

theorem takeWhileAppendFalse {α : Type} {p : α → Bool} (xs : List α) {c : α} {r : List α}
    (hx : ∀ x ∈ xs, p x = true) (hc : p c = false) :
    (xs ++ c :: r).takeWhile p = xs := by
  induction xs with
  | nil => simp [List.takeWhile_cons, hc]
  | cons a t ih =>
    have ha : p a = true := hx a (by simp)
    rw [List.cons_append, List.takeWhile_cons, if_pos ha]
    rw [ih (fun x hmem => hx x (by simp [hmem]))]

theorem dropWhileIdem {α : Type} {p : α → Bool} (l : List α) :
    (l.dropWhile p).dropWhile p = l.dropWhile p := by
  cases h : l.dropWhile p with
  | nil => simp
  | cons c r => simp [List.dropWhile_cons, dropWhileHeadFalse h]

theorem getLastDropWhile {α : Type} {p : α → Bool} {l : List α}
    (h : l.dropWhile p ≠ []) : (l.dropWhile p).getLast? = l.getLast? := by
  induction l with
  | nil => simp [List.dropWhile] at h
  | cons a t ih =>
    rw [List.dropWhile_cons] at h ⊢
    by_cases ha : p a = true
    · rw [if_pos ha] at h ⊢
      have ht : t ≠ [] := by
        intro e; subst e; simp [List.dropWhile] at h
      rw [ih h]
      cases t with
      | nil => exact absurd rfl ht
      | cons b t2 => rw [List.getLast?_cons_cons]
    · rw [if_neg ha]

theorem eqDropLastOfGetLast {α : Type} {l : List α} {c : α}
    (h : l.getLast? = some c) : l = l.dropLast ++ [c] := by
  induction l with
  | nil => simp at h
  | cons a t ih =>
    cases t with
    | nil =>
      simp at h
      subst h
      simp
    | cons b t2 =>
      rw [List.getLast?_cons_cons] at h
      have h2 := ih h
      calc a :: b :: t2 = a :: ((b :: t2).dropLast ++ [c]) := by rw [← h2]
        _ = (a :: b :: t2).dropLast ++ [c] := rfl

/-! ## Strip idempotence -/

theorem stripLeftIdem (l : List Char) : stripLeft (stripLeft l) = stripLeft l :=
  dropWhileIdem l

theorem stripRightIdem (l : List Char) : stripRight (stripRight l) = stripRight l := by
  unfold stripRight
  rw [List.reverse_reverse, dropWhileIdem]

theorem stripLeftOfStripRight (l : List Char) :
    stripLeft (stripRight (stripLeft l)) = stripRight (stripLeft l) := by
  cases hB : stripRight (stripLeft l) with
  | nil => rfl
  | cons b s =>
    have hD : (stripLeft l).reverse.dropWhile isPySpace ≠ [] := by
      intro e
      unfold stripRight at hB
      rw [e] at hB
      simp at hB
    have hBhead : (b :: s).head? = (stripLeft l).head? := by
      rw [← hB]
      unfold stripRight
      rw [List.head?_reverse, getLastDropWhile hD, List.getLast?_reverse]
    cases hA : stripLeft l with
    | nil => rw [hA] at hBhead; simp at hBhead
    | cons a t =>
      have hpa : isPySpace a = false := dropWhileHeadFalse (p := isPySpace) (l := l) hA
      rw [hA] at hBhead
      simp at hBhead
      subst hBhead
      show (b :: s).dropWhile isPySpace = b :: s
      rw [List.dropWhile_cons, if_neg (by simp [hpa])]

theorem pyStripIdem (s : String) : pyStrip (pyStrip s) = pyStrip s := by
  show String.mk (stripRight (stripLeft (stripRight (stripLeft s.data)))) =
    String.mk (stripRight (stripLeft s.data))
  rw [stripLeftOfStripRight, stripRightIdem]

/-! ## Correctness of the email matcher -/

theorem matchDomainIff (d : List Char) :
    matchDomain d = true ↔
      ∃ d1 d2 : List Char, d = d1 ++ '.' :: d2 ∧
        d1 ≠ [] ∧ d1.all isLdhChar = true ∧ d2 ≠ [] ∧ d2.all isLdhDotChar = true := by
  constructor
  · intro h
    cases h0 : d.dropWhile isLdhChar with
    | nil => simp [matchDomain, h0] at h
    | cons c2 d2 =>
      simp only [matchDomain, h0, Bool.and_eq_true, beq_iff_eq, Bool.not_eq_true',
        List.isEmpty_eq_false] at h
      obtain ⟨⟨⟨hc, htw⟩, hd2⟩, hall⟩ := h
      subst hc
      refine ⟨d.takeWhile isLdhChar, d2, ?_, htw, ?_, hd2, hall⟩
      · rw [← h0, List.takeWhile_append_dropWhile]
      · exact List.all_eq_true.mpr (fun x hx => List.mem_takeWhile_imp hx)
  · rintro ⟨d1, d2, rfl, h1, h2, h3, h4⟩
    have hdot : isLdhChar '.' = false := by decide
    have hdw : (d1 ++ '.' :: d2).dropWhile isLdhChar = '.' :: d2 :=
      dropWhileAppendFalse d1 (List.all_eq_true.mp h2) hdot
    have htw : (d1 ++ '.' :: d2).takeWhile isLdhChar = d1 :=
      takeWhileAppendFalse d1 (List.all_eq_true.mp h2) hdot
    simp [matchDomain, hdw, htw, h4, List.isEmpty_eq_false.mpr h1,
      List.isEmpty_eq_false.mpr h3]

theorem matchEmailCoreIff (l : List Char) : matchEmailCore l = true ↔ emailShape l := by
  constructor
  · intro h
    cases h0 : l.dropWhile isLocalChar with
    | nil => simp [matchEmailCore, h0] at h
    | cons c d =>
      simp only [matchEmailCore, h0, Bool.and_eq_true, beq_iff_eq, Bool.not_eq_true',
        List.isEmpty_eq_false] at h
      obtain ⟨⟨hc, htw⟩, hdom⟩ := h
      subst hc
      obtain ⟨d1, d2, hdeq, h1, h2, h3, h4⟩ := (matchDomainIff d).mp hdom
      refine ⟨l.takeWhile isLocalChar, d1, d2, ?_, htw, ?_, h1, h2, h3, h4⟩
      · rw [← hdeq, ← h0, List.takeWhile_append_dropWhile]
      · exact List.all_eq_true.mpr (fun x hx => List.mem_takeWhile_imp hx)
  · rintro ⟨lp, d1, d2, rfl, h1, h2, h3, h4, h5, h6⟩
    have hat : isLocalChar '@' = false := by decide
    have hdw : (lp ++ '@' :: (d1 ++ '.' :: d2)).dropWhile isLocalChar =
        '@' :: (d1 ++ '.' :: d2) :=
      dropWhileAppendFalse lp (List.all_eq_true.mp h2) hat
    have htw : (lp ++ '@' :: (d1 ++ '.' :: d2)).takeWhile isLocalChar = lp :=
      takeWhileAppendFalse lp (List.all_eq_true.mp h2) hat
    have hdom : matchDomain (d1 ++ '.' :: d2) = true :=
      (matchDomainIff _).mpr ⟨d1, d2, rfl, h3, h4, h5, h6⟩
    simp [matchEmailCore, hdw, htw, hdom, List.isEmpty_eq_false.mpr h1]

theorem isValidEmailIff (s : String) :
    is_valid_email s = true ↔
      (emailShape s.data ∨ ∃ t : List Char, s.data = t ++ ['\n'] ∧ emailShape t) := by
  unfold is_valid_email
  rw [Bool.or_eq_true]
  constructor
  · rintro (h | h)
    · exact Or.inl ((matchEmailCoreIff _).mp h)
    · right
      cases hg : s.data.getLast? with
      | none => rw [hg] at h; simp at h
      | some c =>
        rw [hg] at h
        simp only [Bool.and_eq_true, beq_iff_eq] at h
        obtain ⟨hc, hcore⟩ := h
        subst hc
        exact ⟨s.data.dropLast, eqDropLastOfGetLast hg, (matchEmailCoreIff _).mp hcore⟩
  · rintro (h | ⟨t, ht, hsh⟩)
    · exact Or.inl ((matchEmailCoreIff _).mpr h)
    · right
      rw [ht, List.getLast?_concat, List.dropLast_concat]
      simp [(matchEmailCoreIff t).mpr hsh]

/-! ## Branch equations for `submit_data` and the insert -/

theorem submit_eq_empty (st : FormState) (store : DbStore) (dbOk : Bool)
    (h : (pyStrip st.name_entry == "" || pyStrip st.email_entry == "") = true) :
    submit_data st store dbOk =
      (st, store, Notice.warning "Validation Error" "Name and Email are required fields.",
        ([] : List DbEvent)) := by
  unfold submit_data
  rw [if_pos h]

theorem submit_eq_invalid (st : FormState) (store : DbStore) (dbOk : Bool)
    (h1 : (pyStrip st.name_entry == "" || pyStrip st.email_entry == "") = false)
    (h2 : is_valid_email (pyStrip st.email_entry) = false) :
    submit_data st store dbOk =
      (st, store, Notice.warning "Validation Error" "Please enter a valid email address.",
        ([] : List DbEvent)) := by
  unfold submit_data
  rw [if_neg (by simp [h1]), if_neg (by simp [h2])]

theorem submit_eq_ok (st : FormState) (store : DbStore) (dbOk : Bool) {store' : DbStore}
    (h1 : (pyStrip st.name_entry == "" || pyStrip st.email_entry == "") = false)
    (h2 : is_valid_email (pyStrip st.email_entry) = true)
    (h3 : attemptInsert store (pyStrip st.name_entry) (pyStrip st.birthday_entry)
        (pyStrip st.email_entry) (pyStrip st.phone_entry) (pyStrip st.address_entry)
        st.contact_method_var dbOk = Except.ok store') :
    submit_data st store dbOk =
      (clear_form st, store',
        Notice.info "Success" "Customer information saved successfully!",
        [DbEvent.openConn, DbEvent.execSql, DbEvent.commitTx, DbEvent.closeConn]) := by
  unfold submit_data
  rw [if_neg (by simp [h1]), if_pos h2, h3]

theorem submit_eq_err (st : FormState) (store : DbStore) (dbOk : Bool) {e : String}
    (h1 : (pyStrip st.name_entry == "" || pyStrip st.email_entry == "") = false)
    (h2 : is_valid_email (pyStrip st.email_entry) = true)
    (h3 : attemptInsert store (pyStrip st.name_entry) (pyStrip st.birthday_entry)
        (pyStrip st.email_entry) (pyStrip st.phone_entry) (pyStrip st.address_entry)
        st.contact_method_var dbOk = Except.error e) :
    submit_data st store dbOk =
      (st, store, Notice.error "Database Error" ("Failed to save data: " ++ e),
        [DbEvent.openConn, DbEvent.closeConn]) := by
  unfold submit_data
  rw [if_neg (by simp [h1]), if_pos h2, h3]

theorem attemptInsert_some (store : DbStore) (cols : List DbColumn)
    (hs : store.schema = some cols) (n b e p a c : String) :
    attemptInsert store n b e p a c true =
      Except.ok { store with
        rows := store.rows ++ [⟨store.nextId, n, b, e, p, a, c⟩],
        nextId := store.nextId + 1 } := by
  simp [attemptInsert, hs]

theorem attemptInsert_ok_shape {store : DbStore} {n b e p a c : String} {dbOk : Bool}
    {store' : DbStore}
    (h : attemptInsert store n b e p a c dbOk = Except.ok store') :
    store' = { store with
      rows := store.rows ++ [⟨store.nextId, n, b, e, p, a, c⟩],
      nextId := store.nextId + 1 } := by
  unfold attemptInsert at h
  cases dbOk with
  | false => simp at h
  | true =>
    cases hs : store.schema with
    | none => rw [hs] at h; simp at h
    | some cols =>
      rw [hs] at h
      simp at h
      exact h.symm

/-! ## The claims -/

/-- C1 counterexample: the email check is not exactly the claimed language.
The code accepts `"a@b..c"` although its domain `b..c` splits into the
segments `b`, `` and `c`, one of which is empty, so the string is not of the
form the claim describes. -/
theorem email_check_claim_counterexample :
    is_valid_email "a@b..c" = true ∧ claimedEmailSpec "a@b..c" = false := by
  constructor <;> decide

/-- C1 (amended): the email check passes exactly the strings of the form
`lp@d1.d2` with `lp` a nonempty run over ASCII letters/digits/`_.+-`, `d1` a
nonempty run over letters/digits/hyphen and `d2` a nonempty run over
letters/digits/hyphen/dot, optionally followed by one trailing newline; and
whenever the stripped email fails the check, submit leaves the store
unchanged and reports a validation warning. -/
theorem email_check_exact :
    (∀ s : String, is_valid_email s = true ↔
        (emailShape s.data ∨ ∃ t : List Char, s.data = t ++ ['\n'] ∧ emailShape t)) ∧
    (∀ (st : FormState) (store : DbStore) (dbOk : Bool),
        is_valid_email (pyStrip st.email_entry) = false →
        (submit_data st store dbOk).2.1 = store ∧
        ∃ b, (submit_data st store dbOk).2.2.1 = Notice.warning "Validation Error" b) := by
  constructor
  · exact isValidEmailIff
  · intro st store dbOk hv
    cases h1 : (pyStrip st.name_entry == "" || pyStrip st.email_entry == "") with
    | true => rw [submit_eq_empty st store dbOk h1]; exact ⟨rfl, _, rfl⟩
    | false => rw [submit_eq_invalid st store dbOk h1 hv]; exact ⟨rfl, _, rfl⟩

/-- C1 witness: the spec examples behave as proved, at the concrete rejected
email `"no-at-sign.com"`. -/
theorem email_check_exact_witness :
    is_valid_email (pyStrip "no-at-sign.com") = false ∧
    ((submit_data ⟨"Jane", "", "no-at-sign.com", "", "", "Email"⟩ store1 true).2.1 = store1 ∧
      ∃ b, (submit_data ⟨"Jane", "", "no-at-sign.com", "", "", "Email"⟩ store1 true).2.2.1 =
        Notice.warning "Validation Error" b) :=
  ⟨by decide,
    email_check_exact.2 ⟨"Jane", "", "no-at-sign.com", "", "", "Email"⟩ store1 true (by decide)⟩

/-- C2: when the stripped name or the stripped email is empty, submit leaves
the store untouched, reports the required-fields validation warning, and opens
no database connection at all. -/
theorem validation_blocks_insert :
    ∀ (st : FormState) (store : DbStore) (dbOk : Bool),
      pyStrip st.name_entry = "" ∨ pyStrip st.email_entry = "" →
      (submit_data st store dbOk).2.1 = store ∧
      (submit_data st store dbOk).2.2.1 =
        Notice.warning "Validation Error" "Name and Email are required fields." ∧
      (submit_data st store dbOk).2.2.2 = [] := by
  intro st store dbOk h
  have h1 : (pyStrip st.name_entry == "" || pyStrip st.email_entry == "") = true := by
    rcases h with h | h <;> simp [h]
  rw [submit_eq_empty st store dbOk h1]
  exact ⟨rfl, rfl, rfl⟩

/-- C2 witness: a whitespace-only name is rejected without touching the store. -/
theorem validation_blocks_insert_witness :
    (submit_data ⟨"   ", "b", "a@b.co", "p", "ad", "Email"⟩ store1 true).2.1 = store1 ∧
    (submit_data ⟨"   ", "b", "a@b.co", "p", "ad", "Email"⟩ store1 true).2.2.1 =
      Notice.warning "Validation Error" "Name and Email are required fields." ∧
    (submit_data ⟨"   ", "b", "a@b.co", "p", "ad", "Email"⟩ store1 true).2.2.2 = [] :=
  validation_blocks_insert _ store1 true (Or.inl (by decide))

/-- C3: table initialization never changes the stored rows, and a submission
only ever appends rows, each appended row having a nonempty name and an email
accepted by the regex check; no operation mutates or deletes existing rows. -/
theorem stored_rows_invariant :
    ∀ (s : DbStore) (d : Bool) (st : FormState) (store : DbStore) (dbOk : Bool),
      (setup_database s d).1.rows = s.rows ∧
      ∃ suffix : List CustomerRow,
        (submit_data st store dbOk).2.1.rows = store.rows ++ suffix ∧
        ∀ r ∈ suffix, r.name ≠ "" ∧ is_valid_email r.email = true := by
  intro s d st store dbOk
  constructor
  · obtain ⟨sch, rows, nid⟩ := s
    cases d <;> cases sch <;> simp [setup_database, createTableStmt]
  · cases h1 : (pyStrip st.name_entry == "" || pyStrip st.email_entry == "") with
    | true =>
      rw [submit_eq_empty st store dbOk h1]
      exact ⟨[], by simp, by simp⟩
    | false =>
      cases h2 : is_valid_email (pyStrip st.email_entry) with
      | false =>
        rw [submit_eq_invalid st store dbOk h1 h2]
        exact ⟨[], by simp, by simp⟩
      | true =>
        cases h3 : attemptInsert store (pyStrip st.name_entry) (pyStrip st.birthday_entry)
            (pyStrip st.email_entry) (pyStrip st.phone_entry) (pyStrip st.address_entry)
            st.contact_method_var dbOk with
        | error e =>
          rw [submit_eq_err st store dbOk h1 h2 h3]
          exact ⟨[], by simp, by simp⟩
        | ok store' =>
          rw [submit_eq_ok st store dbOk h1 h2 h3, attemptInsert_ok_shape h3]
          refine ⟨[⟨store.nextId, pyStrip st.name_entry, pyStrip st.birthday_entry,
            pyStrip st.email_entry, pyStrip st.phone_entry, pyStrip st.address_entry,
            st.contact_method_var⟩], rfl, ?_⟩
          intro r hr
          rw [List.mem_singleton] at hr
          subst hr
          refine ⟨?_, h2⟩
          intro hemp
          have hemp2 : pyStrip st.name_entry = "" := hemp
          rw [Bool.or_eq_false_iff] at h1
          have hne := h1.1
          rw [hemp2] at hne
          simp at hne

/-- C3 witness: the invariant instantiated at the fresh store and the Jane
Doe submission. -/
theorem stored_rows_invariant_witness :
    (setup_database freshStore true).1.rows = freshStore.rows ∧
    ∃ suffix : List CustomerRow,
      (submit_data janeState store1 true).2.1.rows = store1.rows ++ suffix ∧
      ∀ r ∈ suffix, r.name ≠ "" ∧ is_valid_email r.email = true :=
  stored_rows_invariant freshStore true janeState store1 true

/-- C4: submitting the Jane Doe form against any store whose table exists
appends exactly one row holding the trimmed values under the next
auto-assigned id, shows the success notification, and clears the form. -/
theorem submit_jane_end_to_end :
    ∀ (cols : List DbColumn) (rows : List CustomerRow) (nid : Nat),
      submit_data janeState ⟨some cols, rows, nid⟩ true =
        (⟨"", "", "", "", "", "Email"⟩,
          ⟨some cols,
            rows ++ [⟨nid, "Jane Doe", "1990-01-01", "jane@example.com", "555-1234",
              "1 Main St", "Phone"⟩],
            nid + 1⟩,
          Notice.info "Success" "Customer information saved successfully!",
          [DbEvent.openConn, DbEvent.execSql, DbEvent.commitTx, DbEvent.closeConn]) := by
  intro cols rows nid
  have h1 : (pyStrip janeState.name_entry == "" || pyStrip janeState.email_entry == "") =
      false := by decide
  have h2 : is_valid_email (pyStrip janeState.email_entry) = true := by decide
  have e1 : pyStrip janeState.name_entry = "Jane Doe" := by decide
  have e2 : pyStrip janeState.birthday_entry = "1990-01-01" := by decide
  have e3 : pyStrip janeState.email_entry = "jane@example.com" := by decide
  have e4 : pyStrip janeState.phone_entry = "555-1234" := by decide
  have e5 : pyStrip janeState.address_entry = "1 Main St" := by decide
  have h3 : attemptInsert (⟨some cols, rows, nid⟩ : DbStore) (pyStrip janeState.name_entry)
      (pyStrip janeState.birthday_entry) (pyStrip janeState.email_entry)
      (pyStrip janeState.phone_entry) (pyStrip janeState.address_entry)
      janeState.contact_method_var true =
      Except.ok ⟨some cols,
        rows ++ [⟨nid, "Jane Doe", "1990-01-01", "jane@example.com", "555-1234",
          "1 Main St", "Phone"⟩],
        nid + 1⟩ := by
    rw [e1, e2, e3, e4, e5]
    exact attemptInsert_some _ cols rfl _ _ _ _ _ _
  rw [submit_eq_ok janeState ⟨some cols, rows, nid⟩ true h1 h2 h3]
  rfl

/-- C5: whenever a submission ends in the success notification, the resulting
form state has all five entries empty and the dropdown back on Email. -/
theorem success_clears_form :
    ∀ (st : FormState) (store : DbStore) (dbOk : Bool),
      (submit_data st store dbOk).2.2.1 =
        Notice.info "Success" "Customer information saved successfully!" →
      (submit_data st store dbOk).1 = ⟨"", "", "", "", "", "Email"⟩ := by
  intro st store dbOk h
  cases h1 : (pyStrip st.name_entry == "" || pyStrip st.email_entry == "") with
  | true => rw [submit_eq_empty st store dbOk h1] at h; simp at h
  | false =>
    cases h2 : is_valid_email (pyStrip st.email_entry) with
    | false => rw [submit_eq_invalid st store dbOk h1 h2] at h; simp at h
    | true =>
      cases h3 : attemptInsert store (pyStrip st.name_entry) (pyStrip st.birthday_entry)
          (pyStrip st.email_entry) (pyStrip st.phone_entry) (pyStrip st.address_entry)
          st.contact_method_var dbOk with
      | error e => rw [submit_eq_err st store dbOk h1 h2 h3] at h; simp at h
      | ok store' => rw [submit_eq_ok st store dbOk h1 h2 h3]; rfl

/-- C5 witness: the Jane Doe submission succeeds and the form comes back
empty with the dropdown on Email. -/
theorem success_clears_form_witness :
    (submit_data janeState store1 true).1 = ⟨"", "", "", "", "", "Email"⟩ :=
  success_clears_form janeState store1 true (by decide)

/-- C6: whenever a submission ends in an error box, the form fields and the
store are exactly as before the attempt, and the box is the Database Error
with the failure detail appended. -/
theorem store_failure_preserves_fields :
    ∀ (st : FormState) (store : DbStore) (dbOk : Bool) (t b : String),
      (submit_data st store dbOk).2.2.1 = Notice.error t b →
      (submit_data st store dbOk).1 = st ∧ (submit_data st store dbOk).2.1 = store ∧
      t = "Database Error" ∧ ∃ e, b = "Failed to save data: " ++ e := by
  intro st store dbOk t b h
  cases h1 : (pyStrip st.name_entry == "" || pyStrip st.email_entry == "") with
  | true => rw [submit_eq_empty st store dbOk h1] at h; simp at h
  | false =>
    cases h2 : is_valid_email (pyStrip st.email_entry) with
    | false => rw [submit_eq_invalid st store dbOk h1 h2] at h; simp at h
    | true =>
      cases h3 : attemptInsert store (pyStrip st.name_entry) (pyStrip st.birthday_entry)
          (pyStrip st.email_entry) (pyStrip st.phone_entry) (pyStrip st.address_entry)
          st.contact_method_var dbOk with
      | ok store' => rw [submit_eq_ok st store dbOk h1 h2 h3] at h; simp at h
      | error e =>
        rw [submit_eq_err st store dbOk h1 h2 h3] at h ⊢
        simp at h
        exact ⟨rfl, rfl, h.1.symm, e, h.2.symm⟩

/-- C6 witness: with the insert failing, the Jane Doe fields survive intact
and the Database Error box carries the detail. -/
theorem store_failure_preserves_fields_witness :
    (submit_data janeState store1 false).1 = janeState ∧
    (submit_data janeState store1 false).2.1 = store1 ∧
    ("Database Error" : String) = "Database Error" ∧
    ∃ e, ("Failed to save data: database failure" : String) = "Failed to save data: " ++ e :=
  store_failure_preserves_fields janeState store1 false "Database Error"
    "Failed to save data: database failure" (by decide)

/-- C7: any row a submission adds holds exactly the stripped entry values,
and, since the read-only dropdown only ever carries one of its three listed
values, no column of an added row has leading or trailing whitespace. -/
theorem trimmed_before_storage :
    ∀ (st : FormState) (store : DbStore) (dbOk : Bool) (r : CustomerRow),
      st.contact_method_var ∈ contact_options →
      r ∈ (submit_data st store dbOk).2.1.rows →
      r ∉ store.rows →
      (r.name = pyStrip st.name_entry ∧ r.birthday = pyStrip st.birthday_entry ∧
        r.email = pyStrip st.email_entry ∧ r.phone = pyStrip st.phone_entry ∧
        r.address = pyStrip st.address_entry ∧ r.contact_method = st.contact_method_var) ∧
      (pyStrip r.name = r.name ∧ pyStrip r.birthday = r.birthday ∧
        pyStrip r.email = r.email ∧ pyStrip r.phone = r.phone ∧
        pyStrip r.address = r.address ∧ pyStrip r.contact_method = r.contact_method) := by
  intro st store dbOk r hcm hmem hnot
  cases h1 : (pyStrip st.name_entry == "" || pyStrip st.email_entry == "") with
  | true =>
    rw [submit_eq_empty st store dbOk h1] at hmem
    exact absurd hmem hnot
  | false =>
    cases h2 : is_valid_email (pyStrip st.email_entry) with
    | false =>
      rw [submit_eq_invalid st store dbOk h1 h2] at hmem
      exact absurd hmem hnot
    | true =>
      cases h3 : attemptInsert store (pyStrip st.name_entry) (pyStrip st.birthday_entry)
          (pyStrip st.email_entry) (pyStrip st.phone_entry) (pyStrip st.address_entry)
          st.contact_method_var dbOk with
      | error e =>
        rw [submit_eq_err st store dbOk h1 h2 h3] at hmem
        exact absurd hmem hnot
      | ok store' =>
        rw [submit_eq_ok st store dbOk h1 h2 h3, attemptInsert_ok_shape h3] at hmem
        have hmem2 : r ∈ store.rows ++ [(⟨store.nextId, pyStrip st.name_entry,
            pyStrip st.birthday_entry, pyStrip st.email_entry, pyStrip st.phone_entry,
            pyStrip st.address_entry, st.contact_method_var⟩ : CustomerRow)] := hmem
        rw [List.mem_append, List.mem_singleton] at hmem2
        rcases hmem2 with hmem2 | hmem2
        · exact absurd hmem2 hnot
        · subst hmem2
          refine ⟨⟨rfl, rfl, rfl, rfl, rfl, rfl⟩,
            pyStripIdem _, pyStripIdem _, pyStripIdem _, pyStripIdem _, pyStripIdem _, ?_⟩
          show pyStrip st.contact_method_var = st.contact_method_var
          simp only [contact_options, List.mem_cons, List.mem_singleton,
            List.not_mem_nil, or_false] at hcm
          rcases hcm with h | h | h <;> rw [h] <;> decide

/-- C7 witness: the Jane Doe row is stored stripped in every column. -/
theorem trimmed_before_storage_witness :
    janeState.contact_method_var ∈ contact_options ∧
    janeRow ∈ (submit_data janeState store1 true).2.1.rows ∧
    janeRow ∉ store1.rows ∧
    ((janeRow.name = pyStrip janeState.name_entry ∧
        janeRow.birthday = pyStrip janeState.birthday_entry ∧
        janeRow.email = pyStrip janeState.email_entry ∧
        janeRow.phone = pyStrip janeState.phone_entry ∧
        janeRow.address = pyStrip janeState.address_entry ∧
        janeRow.contact_method = janeState.contact_method_var) ∧
      (pyStrip janeRow.name = janeRow.name ∧ pyStrip janeRow.birthday = janeRow.birthday ∧
        pyStrip janeRow.email = janeRow.email ∧ pyStrip janeRow.phone = janeRow.phone ∧
        pyStrip janeRow.address = janeRow.address ∧
        pyStrip janeRow.contact_method = janeRow.contact_method)) :=
  ⟨by decide, by decide, by decide,
    trimmed_before_storage janeState store1 true janeRow (by decide) (by decide) (by decide)⟩

/-- C8: with the disk healthy, running `setup_database` twice in a row never
raises an error box, the second run returns the store of the first unchanged,
and starting from a fresh file the schema is the declared customers schema. -/
theorem setup_database_idempotent :
    ∀ s : DbStore,
      (setup_database s true).2.1 = none ∧
      (setup_database (setup_database s true).1 true).2.1 = none ∧
      (setup_database (setup_database s true).1 true).1 = (setup_database s true).1 ∧
      (setup_database freshStore true).1.schema = some customersColumns := by
  intro s
  obtain ⟨sch, rows, nid⟩ := s
  cases sch <;> simp [setup_database, createTableStmt, freshStore]

/-- C9: every `setup_database` call and every `submit_data` call closes
exactly as many connections as it opens, whatever the oracle outcome. -/
theorem connections_released :
    ∀ (s : DbStore) (d : Bool) (st : FormState) (store : DbStore) (dbOk : Bool),
      ((setup_database s d).2.2.2).count DbEvent.openConn =
        ((setup_database s d).2.2.2).count DbEvent.closeConn ∧
      ((submit_data st store dbOk).2.2.2).count DbEvent.openConn =
        ((submit_data st store dbOk).2.2.2).count DbEvent.closeConn := by
  intro s d st store dbOk
  constructor
  · obtain ⟨sch, rows, nid⟩ := s
    cases d <;> cases sch <;> rfl
  · cases h1 : (pyStrip st.name_entry == "" || pyStrip st.email_entry == "") with
    | true => rw [submit_eq_empty st store dbOk h1]; rfl
    | false =>
      cases h2 : is_valid_email (pyStrip st.email_entry) with
      | false => rw [submit_eq_invalid st store dbOk h1 h2]; rfl
      | true =>
        cases h3 : attemptInsert store (pyStrip st.name_entry) (pyStrip st.birthday_entry)
            (pyStrip st.email_entry) (pyStrip st.phone_entry) (pyStrip st.address_entry)
            st.contact_method_var dbOk with
        | error e => rw [submit_eq_err st store dbOk h1 h2 h3]; rfl
        | ok store' => rw [submit_eq_ok st store dbOk h1 h2 h3]; rfl

/-- C10: the declared schema puts NOT NULL on exactly the name and email
columns, so it accepts rows with a missing or off-list contact method and
rejects only missing name or email; the presence of a contact method from
Email, Phone, Mail is guaranteed only by the read-only dropdown defaulting
to Email. -/
theorem schema_not_null_only_name_email :
    ((customersColumns.filter (fun c => c.notNull)).map (fun c => c.colName) =
      ["name", "email"]) ∧
    rowSatisfiesNotNull ⟨some 1, some "x", none, some "x@y.z", none, none, none⟩ = true ∧
    rowSatisfiesNotNull ⟨some 1, some "x", none, some "x@y.z", none, none, some "Fax"⟩ = true ∧
    rowSatisfiesNotNull ⟨some 1, none, some "b", some "x@y.z", some "p", some "a",
      some "Email"⟩ = false ∧
    rowSatisfiesNotNull ⟨some 1, some "x", some "b", none, some "p", some "a",
      some "Email"⟩ = false ∧
    contact_method_menu.values = ["Email", "Phone", "Mail"] ∧
    contact_method_menu.state = "readonly" ∧
    contact_method_menu.current = "Email" ∧
    (∀ st : FormState, (clear_form st).contact_method_var = "Email") :=
  ⟨by decide, by decide, by decide, by decide, by decide, rfl, rfl, by decide, fun _ => rfl⟩
